import Mathlib

/-!
# PiTweetBot `display.cpp`: GPIO bring-up of the TCM display module

A shallow embedding of `src/display.cpp`.  The program opens `/dev/mem`, maps the
GPIO register block, configures two pins through the function-select registers,
and reads the level register before and after a fixed delay.

Modelling conventions.

* A register word is a `Nat` below `2 ^ 32`; every store reduces modulo `2 ^ 32`
  (conversion to `uint32_t`).  C `int` expressions are computed in `Int` and wrapped
  to 32 bits where the C expression can leave the range.
* A pointer is an `Int`: `nullptr` is `0` and `MAP_FAILED`, written `(void *) -1` in
  `<sys/mman.h>`, is `-1`.
* The register window is a map from word index to word.  It is ordinary memory: a
  store to a word is seen by the next load of that word.
* The operating system is a parameter (`Env`): what `::open` and `::mmap` return, the
  `errno` they leave, the text `strerror_r` gives, the initial content of the
  register window, and what happens to the window while the process sleeps.
* Everything observable is appended to a trace of events.
-/

namespace PiTweetBot

/-! ## C integer conversions -/

/-- Conversion of an `int` value to `uint32_t`: reduction modulo `2 ^ 32`. -/
def toU32 (i : Int) : Nat := (i % 4294967296).toNat

/-- Wrap an integer into the range of a 32-bit two's complement `int`. -/
def toI32 (i : Int) : Int := (i + 2147483648) % 4294967296 - 2147483648

/-- C `a << n` on `int`. -/
def cShl (a : Int) (n : Nat) : Int := toI32 (a * 2 ^ n)

/-- C `~a` on `int`. -/
def cNot (a : Int) : Int := -a - 1

/-! ## Pointers, constants -/

/-- The null pointer. -/
def nullptr : Int := 0

/-- The failure value of `::mmap`, `(void *) -1`. -/
def MAP_FAILED : Int := -1

/-- Source: `const uint32_t BCM2708_PERIPHERAL_BASE = 0x3F000000;` -/
def BCM2708_PERIPHERAL_BASE : Nat := 0x3F000000

/-- Source: `const uint32_t GPIO_BASE = BCM2708_PERIPHERAL_BASE + 0x200000;` -/
def GPIO_BASE : Nat := (BCM2708_PERIPHERAL_BASE + 0x200000) % 4294967296

/-- Source: `const uint32_t mapSize = 4096;` (bytes) -/
def mapSize : Nat := 4096

/-- Source: `const int TC_EN = 17;` -/
def TC_EN : Nat := 17

/-- Source: `const int TC_BUSY = 27;` -/
def TC_BUSY : Nat := 27

/-! ## Machine state, events, environment -/

/-- Content of the register window: word index to 32-bit word. -/
abbrev Window := Nat → Nat

/-- Store of `v`, converted to `uint32_t`, into word `k` of the window. -/
def Window.set (w : Window) (k v : Nat) : Window :=
  fun j => if j = k then v % 4294967296 else w j

/-- Observable events of a run, in program order. -/
inductive Event where
  /-- Output of a string literal: `std::cout << "text"` -/
  | cout (s : String)
  /-- Output of a `uint32_t` value: `std::cout << v` -/
  | coutU32 (v : Nat)
  /-- End of line: `std::cout << std::endl` -/
  | endl
  /-- Diagnostic: `std::cerr << text` -/
  | cerr (s : String)
  /-- Call `::open(path, O_RDWR | O_SYNC)` returning `ret` -/
  | sysOpen (path : String) (ret : Int)
  /-- Call `::mmap(NULL, length, PROT_READ | PROT_WRITE, MAP_SHARED, fd, offset)` returning `ret` -/
  | sysMmap (length : Nat) (fd : Int) (offset : Nat) (ret : Int)
  /-- Call `::close(fd)` -/
  | sysClose (fd : Int)
  /-- load of word `idx` of the register window, giving `v` -/
  | load (idx : Nat) (v : Nat)
  /-- store of `v` to word `idx` of the register window -/
  | store (idx : Nat) (v : Nat)
  /-- access to word `idx` through a base pointer that is not a mapped window -/
  | badAccess (base : Int) (idx : Nat)
  /-- Call `usleep(us)` -/
  | usleep (us : Nat)
  deriving DecidableEq, Repr

/-- The operating system and the hardware (or a fake of it) the program runs against. -/
structure Env where
  /-- return value of `::open("/dev/mem", ...)`: a descriptor, or negative on failure -/
  openRet : Int
  /-- value of `errno` once `::open` has returned -/
  openErrno : Int
  /-- return value of `::mmap`: the address of the mapping, or `MAP_FAILED` -/
  mmapRet : Int
  /-- value of `errno` once `::mmap` has returned -/
  mmapErrno : Int
  /-- text produced by `strerror_r` -/
  strerror : Int → String
  /-- initial content of the register window -/
  regs : Window
  /-- what the hardware does to the register window during `usleep` -/
  onDelay : Window → Window

/-- State of the process: the two globals, `errno`, the mapping established by
`::mmap` (if any), the content of the register window, and the trace so far. -/
structure Machine where
  /-- Global `void* gpioMmap = nullptr;` -/
  gpioMmap : Int
  /-- Global `volatile uint32_t* gpioBase = nullptr;` -/
  gpioBase : Int
  /-- thread-local `errno` -/
  errno : Int
  /-- address at which the register window is mapped, once `::mmap` has succeeded -/
  mapped : Option Int
  /-- content of the register window -/
  window : Window
  /-- events so far, oldest first -/
  trace : List Event

/-- How a piece of the program ends. -/
inductive Result (α : Type) where
  /-- normal completion with a value -/
  | ok (a : α) (m : Machine)
  /-- a `std::runtime_error` is propagating -/
  | throw (what : String) (m : Machine)
  /-- invalid memory access: the process is killed -/
  | fault (m : Machine)

/-- A statement or function body: state in, result out. -/
def Prog (α : Type) : Type := Machine → Result α

/-- Sequencing: an exception or a fault skips the rest. -/
def Prog.bind {α β : Type} (p : Prog α) (f : α → Prog β) : Prog β := fun m =>
  match p m with
  | .ok a m1 => f a m1
  | .throw w m1 => .throw w m1
  | .fault m1 => .fault m1

instance : Monad Prog where
  pure a := fun m => .ok a m
  bind := Prog.bind

/-- Append one event to the trace. -/
def emit (e : Event) : Prog Unit := fun m =>
  .ok () { m with trace := m.trace ++ [e] }

/-- Statement `throw std::runtime_error(what)`. -/
def throwRuntimeError {α : Type} (what : String) : Prog α := fun m => .throw what m

/-! ## `checkOperation` and `CHECK_OPERATION` -/

/-- Function `void checkOperation(const int result, const char* const operation,
const char* const file, const int line)`: report and throw when `result < 0`. -/
def checkOperation (env : Env) (result : Int) (operation file : String) (line : Nat) :
    Prog Unit := fun m =>
  let errnum := m.errno
  if result < 0 then
    let msg := "Operation [" ++ operation ++ "] failed with return ["
      ++ toString result ++ "]. Error is [errno := " ++ toString errnum ++ ", msg = "
      ++ env.strerror errnum
      ++ "]. Failed at [" ++ file ++ ":" ++ toString line ++ "]."
    (do emit (.cerr msg); throwRuntimeError msg) m
  else
    .ok () m

/-! ## `openGPIO` -/

/-- Text of the operation as stringised by `CHECK_OPERATION` in ` openGPIO`. -/
def openOpText : String := "memoryFD = ::open(\"/dev/mem\", O_RDWR | O_SYNC)"

/-- The call `::open("/dev/mem", O_RDWR | O_SYNC)`. -/
def sysOpen (env : Env) : Prog Int := fun m =>
  .ok env.openRet { m with errno := env.openErrno,
                           trace := m.trace ++ [.sysOpen "/dev/mem" env.openRet] }

/-- The call `::mmap(NULL, mapSize, PROT_READ | PROT_WRITE, MAP_SHARED, fd, GPIO_BASE)`.
The window is mapped at the returned address unless that is `MAP_FAILED`. -/
def sysMmap (env : Env) (fd : Int) : Prog Int := fun m =>
  .ok env.mmapRet { m with errno := env.mmapErrno,
                           mapped := if env.mmapRet = MAP_FAILED then m.mapped
                                     else some env.mmapRet,
                           trace := m.trace ++ [.sysMmap mapSize fd GPIO_BASE env.mmapRet] }

/-- Function `void openGPIO()`. -/
def openGPIO (env : Env) : Prog Unit := do
  -- int memoryFD = -1; CHECK_OPERATION(memoryFD = ::open("/dev/mem", O_RDWR | O_SYNC));
  (fun m => .ok () { m with errno := 0 })
  let memoryFD ← sysOpen env
  checkOperation env memoryFD openOpText "display.cpp" 61
  -- errno = 0; gpioMmap = ::mmap(...);
  (fun m => .ok () { m with errno := 0 })
  let p ← sysMmap env memoryFD
  (fun m => .ok () { m with gpioMmap := p })
  -- int errnum = errno; ::close(memoryFD);
  let errnum ← (fun m => .ok m.errno m)
  emit (.sysClose memoryFD)
  let gpioMmap ← (fun m => .ok m.gpioMmap m)
  if nullptr = gpioMmap then
    let msg := "Memory mapping failed. Error is [errno := " ++ toString errnum
      ++ ", msg = " ++ env.strerror errnum ++ "]"
    emit (.cerr msg)
    throwRuntimeError msg
  else
    -- gpioBase = reinterpret_cast<volatile uint32_t*>(gpioMmap);
    (fun m => .ok () { m with gpioBase := m.gpioMmap })

/-! ## Register access and the GPIO macros -/

/-- Whether `*(gpioBase + k)` is an access to word `k` of the mapped window. -/
def validAccess (m : Machine) (k : Nat) : Prop :=
  m.mapped = some m.gpioBase ∧ 4 * k + 4 ≤ mapSize

instance (m : Machine) (k : Nat) : Decidable (validAccess m k) := by
  unfold validAccess; infer_instance

/-- Read of `*(gpioBase + k)`. -/
def loadReg (k : Nat) : Prog Nat := fun m =>
  if validAccess m k then
    .ok (m.window k) { m with trace := m.trace ++ [.load k (m.window k)] }
  else
    .fault { m with trace := m.trace ++ [.badAccess m.gpioBase k] }

/-- Write of `*(gpioBase + k) = v`, with `v` converted to `uint32_t`. -/
def storeReg (k : Nat) (v : Nat) : Prog Unit := fun m =>
  if validAccess m k then
    .ok () { m with window := m.window.set k v,
                    trace := m.trace ++ [.store k (v % 4294967296)] }
  else
    .fault { m with trace := m.trace ++ [.badAccess m.gpioBase k] }

/-- Macro `#define INP_GPIO(g)   *(gpioBase + ((g)/10)) &= ~(7<<(((g)%10)*3))` -/
def INP_GPIO (g : Nat) : Prog Unit := do
  let v ← loadReg (g / 10)
  storeReg (g / 10) (v &&& toU32 (cNot (cShl 7 ((g % 10) * 3))))

/-- Macro `#define OUT_GPIO(g)   *(gpioBase + ((g)/10)) |=  (1<<(((g)%10)*3))` -/
def OUT_GPIO (g : Nat) : Prog Unit := do
  let v ← loadReg (g / 10)
  storeReg (g / 10) (v ||| toU32 (cShl 1 ((g % 10) * 3)))

/-- Macro `#define GPIO_CLR  *(gpioBase + 10)`, used as `GPIO_CLR = v`: a plain store. -/
def GPIO_CLR (v : Int) : Prog Unit :=
  storeReg 10 (toU32 v)

/-- Macro `#define GPIO_READ(g)  *(gpioBase + 13) &= (1<<(g))`: a compound assignment,
whose value is the value stored. -/
def GPIO_READ (g : Nat) : Prog Nat := do
  let v ← loadReg 13
  let r := (v &&& toU32 (cShl 1 g)) % 4294967296
  storeReg 13 r
  pure r

/-- Function `void configureGPIO()`. -/
def configureGPIO : Prog Unit := do
  INP_GPIO TC_EN
  INP_GPIO TC_BUSY
  OUT_GPIO TC_EN
  OUT_GPIO TC_BUSY
  GPIO_CLR (cShl 1 TC_EN)

/-! ## `main` -/

/-- Call `usleep(us)`: the process blocks; the hardware may change the registers meanwhile. -/
def usleep (env : Env) (us : Nat) : Prog Unit := fun m =>
  .ok () { m with window := env.onDelay m.window, trace := m.trace ++ [.usleep us] }

/-- Function `int main(int argc, char** argv)`; the arguments are not used.  The operands
of each `<<` chain are evaluated left to right. -/
def main (env : Env) : Prog Int := do
  emit (.cout "Opening GPIO"); emit .endl
  openGPIO env
  emit (.cout "Configuring GPIO"); emit .endl
  configureGPIO
  emit (.cout "/TC_BUSY [")
  let b1 ← GPIO_READ TC_BUSY
  emit (.coutU32 b1); emit (.cout "]"); emit .endl
  emit (.cout "Waiting for TCM startup"); emit .endl
  usleep env 100000
  emit (.cout "Sanity check: /TC_BUSY should be 0 [")
  let b2 ← GPIO_READ TC_BUSY
  emit (.coutU32 b2); emit (.cout "]"); emit .endl
  pure 0

/-- State of the process when `main` is entered. -/
def initial (env : Env) : Machine :=
  { gpioMmap := nullptr, gpioBase := nullptr, errno := 0, mapped := none,
    window := env.regs, trace := [] }

/-- A whole run of the program. -/
def run (env : Env) : Result Int := main env (initial env)

/-! ## Observations on windows, traces and results -/

/-- Function-select field of pin `g`: the three bits at position `(g % 10) * 3` of
word `g / 10` (`0` is input, `1` is output). -/
def fsel (w : Window) (g : Nat) : Nat := (w (g / 10) >>> ((g % 10) * 3)) &&& 7

/-- The process can reach the register window: the window is mapped and `gpioBase`
holds the address of the mapping.  This is the state ` openGPIO` leaves on success. -/
def Ready (m : Machine) : Prop := m.mapped = some m.gpioBase

instance (m : Machine) : Decidable (Ready m) := by
  unfold Ready; infer_instance

/-- How the process ends. -/
inductive Exit where
  /-- return from `main` with this value -/
  | status (code : Int)
  /-- an exception left `main`: `std::terminate`, abnormal termination -/
  | terminate
  /-- killed on an invalid memory access -/
  | killed
  deriving DecidableEq, Repr

/-- End of the process for a result of `main`. -/
def Result.exit : Result Int → Exit
  | .ok c _ => .status c
  | .throw _ _ => .terminate
  | .fault _ => .killed

/-- Machine state carried by a result. -/
def Result.machine {α : Type} : Result α → Machine
  | .ok _ m => m
  | .throw _ m => m
  | .fault m => m

/-- Whether a result is a propagating exception. -/
def Result.raised {α : Type} : Result α → Bool
  | .throw _ _ => true
  | _ => false

/-- The numbers printed on standard output, in order. -/
def printedValues (t : List Event) : List Nat :=
  t.filterMap fun e => match e with
    | .coutU32 v => some v
    | _ => none

/-- The durations of the `usleep` calls, in order. -/
def delays (t : List Event) : List Nat :=
  t.filterMap fun e => match e with
    | .usleep us => some us
    | _ => none

/-- Whether an event is output to `std::cout` or `std::cerr`. -/
def Event.isOutput : Event → Bool
  | .cout _ => true
  | .coutU32 _ => true
  | .endl => true
  | .cerr _ => true
  | _ => false

/-- Whether an event is an access (valid or not) through `gpioBase`. -/
def Event.isRegisterAccess : Event → Bool
  | .load _ _ => true
  | .store _ _ => true
  | .badAccess _ _ => true
  | _ => false

/-- Whether an event is a store to word `k` of the register window. -/
def Event.isStoreTo (k : Nat) : Event → Bool
  | .store i _ => decide (i = k)
  | _ => false

/-- Whether an event is a load of word `k` of the register window. -/
def Event.isLoadOf (k : Nat) : Event → Bool
  | .load i _ => decide (i = k)
  | _ => false

/-- Whether an event is a call of `::mmap`. -/
def Event.isMmap : Event → Bool
  | .sysMmap _ _ _ _ => true
  | _ => false

/-- The system calls and register accesses of a trace: everything but output. -/
def systemEvents (t : List Event) : List Event := t.filter fun e => !e.isOutput

/-! ## Closed forms, proved equal to the embedding below -/

/-- A function-select word after its bits 21..23 are cleared. -/
def clr21 (v : Nat) : Nat := (v &&& 4280287231) % 4294967296

/-- A function-select word after its bits 21..23 are cleared and bit 21 is then set. -/
def out21 (v : Nat) : Nat := (clr21 v ||| 2097152) % 4294967296

/-- Register window after ` configureGPIO`. -/
def cfgWindow (w : Window) : Window :=
  fun j => if j = 10 then 131072 else if j = 1 ∨ j = 2 then out21 (w j) else w j

/-- Register accesses of ` configureGPIO`, in order. -/
def cfgTrace (w : Window) : List Event :=
  [.load 1 (w 1), .store 1 (clr21 (w 1)),
   .load 2 (w 2), .store 2 (clr21 (w 2)),
   .load 1 (clr21 (w 1)), .store 1 (out21 (w 1)),
   .load 2 (clr21 (w 2)), .store 2 (out21 (w 2)),
   .store 10 131072]

/-- Value of `GPIO_READ(TC_BUSY)` for a level word `v`. -/
def busyOf (v : Nat) : Nat := (v &&& 134217728) % 4294967296

/-- Register window at the second busy read of a run. -/
def windowAfterDelay (env : Env) : Window :=
  env.onDelay ((cfgWindow env.regs).set 13 (busyOf (env.regs 13)))

/-- Trace of a run in which `::open` and `::mmap` succeed. -/
def runTrace (env : Env) : List Event :=
  [.cout "Opening GPIO", .endl,
   .sysOpen "/dev/mem" env.openRet,
   .sysMmap mapSize env.openRet GPIO_BASE env.mmapRet,
   .sysClose env.openRet,
   .cout "Configuring GPIO", .endl]
  ++ cfgTrace env.regs ++
  [.cout "/TC_BUSY [",
   .load 13 (env.regs 13), .store 13 (busyOf (env.regs 13)),
   .coutU32 (busyOf (env.regs 13)), .cout "]", .endl,
   .cout "Waiting for TCM startup", .endl,
   .usleep 100000,
   .cout "Sanity check: /TC_BUSY should be 0 [",
   .load 13 (windowAfterDelay env 13), .store 13 (busyOf (windowAfterDelay env 13)),
   .coutU32 (busyOf (windowAfterDelay env 13)), .cout "]", .endl]

/-- Text of the exception thrown when `::open` fails. -/
def openFailText (env : Env) : String :=
  "Operation [" ++ openOpText ++ "] failed with return ["
    ++ toString env.openRet ++ "]. Error is [errno := " ++ toString env.openErrno
    ++ ", msg = " ++ env.strerror env.openErrno
    ++ "]. Failed at [" ++ "display.cpp" ++ ":" ++ toString 61 ++ "]."

/-- Success of `::mmap`: the call returns neither `MAP_FAILED` nor the null pointer.
The call passes `NULL` as address hint without `MAP_FIXED`, and then a mapping is
never placed at address 0. -/
def mmapSucceeds (env : Env) : Prop := env.mmapRet ≠ MAP_FAILED ∧ env.mmapRet ≠ nullptr

instance (env : Env) : Decidable (mmapSucceeds env) := by
  unfold mmapSucceeds; infer_instance

/-- The printed numbers and the delays of a trace, in order. -/
def valuesAndDelays (t : List Event) : List Event :=
  t.filter fun e => match e with
    | .coutU32 _ => true
    | .usleep _ => true
    | _ => false

/-! ## Sample inputs -/

/-- A ready machine whose register words are all ones. -/
def onesMachine : Machine :=
  { gpioMmap := 1996488704, gpioBase := 1996488704, errno := 0,
    mapped := some 1996488704, window := fun _ => 4294967295, trace := [] }

/-- A ready machine whose register words are all zero. -/
def zeroMachine : Machine :=
  { gpioMmap := 1996488704, gpioBase := 1996488704, errno := 0,
    mapped := some 1996488704, window := fun _ => 0, trace := [] }

/-- A ready machine with a mixed bit pattern in every register word. -/
def mixedMachine : Machine :=
  { gpioMmap := 1996488704, gpioBase := 1996488704, errno := 0,
    mapped := some 1996488704, window := fun j => 2863311530 + j, trace := [] }

/-- An environment in which `::open` fails with `EACCES`. -/
def envOpenFail : Env :=
  { openRet := -1, openErrno := 13, mmapRet := 1996488704, mmapErrno := 0,
    strerror := fun _ => "Permission denied", regs := fun _ => 4294967295,
    onDelay := fun w => w }

/-- An environment in which `::open` succeeds and `::mmap` fails with `ENOMEM`. -/
def envMapFail : Env :=
  { openRet := 3, openErrno := 0, mmapRet := MAP_FAILED, mmapErrno := 12,
    strerror := fun _ => "Cannot allocate memory", regs := fun _ => 0,
    onDelay := fun w => w }

/-- A fake register window for the bring-up scenario: the level word has the busy bit
(bit 27) set at first, and the fake flips that bit when it observes the delay. -/
def envScenario : Env :=
  { openRet := 3, openErrno := 0, mmapRet := 1996488704, mmapErrno := 0,
    strerror := fun _ => "", regs := fun j => if j = 13 then 134217728 else 0,
    onDelay := fun w j => if j = 13 then w 13 ^^^ 134217728 else w j }

/-- An environment in which both calls succeed and the registers hold all ones and
do not change during the delay. -/
def envSteady : Env :=
  { openRet := 3, openErrno := 0, mmapRet := 1996488704, mmapErrno := 0,
    strerror := fun _ => "", regs := fun _ => 4294967295,
    onDelay := fun w => w }

/-! ## Basic facts -/

@[simp] theorem bind_apply {α β : Type} (p : Prog α) (f : α → Prog β) (m : Machine) :
    (p >>= f) m = Prog.bind p f m := rfl

@[simp] theorem pure_apply {α : Type} (a : α) (m : Machine) :
    (pure a : Prog α) m = .ok a m := rfl

@[simp] theorem Window.set_apply (w : Window) (k v j : Nat) :
    w.set k v j = if j = k then v % 4294967296 else w j := rfl

theorem mask_clear : toU32 (cNot (cShl 7 21)) = 4280287231 := by decide

theorem mask_out : toU32 (cShl 1 21) = 2097152 := by decide

theorem mask_en : toU32 (cShl 1 17) = 131072 := by decide

theorem mask_busy : toU32 (cShl 1 27) = 134217728 := by decide

theorem mask_pin : ∀ g, g < 32 → toU32 (cShl 1 g) = 2 ^ g := by decide

/-- On a ready machine ` configureGPIO` completes, with the closed-form window and trace. -/
theorem configureGPIO_closed (m : Machine) (hr : m.mapped = some m.gpioBase) :
    configureGPIO m = .ok () { m with window := cfgWindow m.window,
                                       trace := m.trace ++ cfgTrace m.window } := by
  simp [ configureGPIO, INP_GPIO, OUT_GPIO, GPIO_CLR, Prog.bind, loadReg, storeReg, validAccess,
    hr, mapSize, TC_EN, TC_BUSY, mask_clear, mask_out, mask_en, cfgTrace, clr21, out21]
  funext j
  simp only [cfgWindow, clr21, out21]
  by_cases h10 : j = 10
  · simp [h10]
  · by_cases h1 : j = 1
    · simp [h1]
    · by_cases h2 : j = 2
      · simp [h2]
      · simp [h1, h2, h10]

/-- On a ready machine `GPIO_READ(g)` completes: it loads word 13, stores the masked
value back and yields it. -/
theorem GPIO_READ_closed (m : Machine) (g : Nat) (hr : m.mapped = some m.gpioBase) :
    GPIO_READ g m =
      .ok ((m.window 13 &&& toU32 (cShl 1 g)) % 4294967296)
        { m with window := m.window.set 13 ((m.window 13 &&& toU32 (cShl 1 g)) % 4294967296),
                 trace := m.trace ++ [.load 13 (m.window 13),
                   .store 13 ((m.window 13 &&& toU32 (cShl 1 g)) % 4294967296)] } := by
  simp [GPIO_READ, Prog.bind, loadReg, storeReg, validAccess, hr, mapSize]

/-- When `::open` and `::mmap` succeed ` openGPIO` completes and leaves a ready machine. -/
theorem openGPIO_closed (env : Env) (m : Machine)
    (ho : 0 ≤ env.openRet) (hm : env.mmapRet ≠ MAP_FAILED) (hn : env.mmapRet ≠ nullptr) :
    openGPIO env m = .ok () { m with
      gpioMmap := env.mmapRet, gpioBase := env.mmapRet, errno := env.mmapErrno,
      mapped := some env.mmapRet,
      trace := m.trace ++ [.sysOpen "/dev/mem" env.openRet,
        .sysMmap mapSize env.openRet GPIO_BASE env.mmapRet, .sysClose env.openRet] } := by
  have ho' : ¬ env.openRet < 0 := not_lt.mpr ho
  have hn' : ¬ nullptr = env.mmapRet := fun h => hn h.symm
  simp [ openGPIO, Prog.bind, sysOpen, sysMmap, checkOperation, emit, ho', hm, hn']

/-- A run in which `::open` and `::mmap` succeed returns 0 with the trace `runTrace`. -/
theorem run_closed (env : Env)
    (ho : 0 ≤ env.openRet) (hm : env.mmapRet ≠ MAP_FAILED) (hn : env.mmapRet ≠ nullptr) :
    run env = .ok 0 { gpioMmap := env.mmapRet, gpioBase := env.mmapRet,
                      errno := env.mmapErrno, mapped := some env.mmapRet,
                      window := (windowAfterDelay env).set 13 (busyOf (windowAfterDelay env 13)),
                      trace := runTrace env } := by
  simp [run, main, initial, Prog.bind, emit, usleep, openGPIO_closed env _ ho hm hn,
    configureGPIO_closed, GPIO_READ_closed, TC_BUSY, mask_busy, runTrace, windowAfterDelay,
    busyOf, cfgWindow]

/-! ## Bit-level facts about the function-select words -/

theorem const_clear_bits : ∀ k, k < 32 →
    Nat.testBit 4280287231 k = !(decide (k = 21) || decide (k = 22) || decide (k = 23)) := by
  decide

theorem const_out_bits : ∀ k, k < 32 → Nat.testBit 2097152 k = decide (k = 21) := by
  decide

theorem clr21_testBit (v k : Nat) (hk : k < 32) :
    (clr21 v).testBit k = if k = 21 ∨ k = 22 ∨ k = 23 then false else v.testBit k := by
  have h32 : (4294967296 : Nat) = 2 ^ 32 := by norm_num
  simp only [clr21, h32, Nat.testBit_mod_two_pow, Nat.testBit_and,
    const_clear_bits k hk, hk, decide_True, Bool.true_and]
  by_cases h21 : k = 21
  · simp [h21]
  · by_cases h22 : k = 22
    · simp [h22]
    · by_cases h23 : k = 23
      · simp [h23]
      · simp [h21, h22, h23]

theorem out21_testBit (v k : Nat) (hk : k < 32) :
    (out21 v).testBit k =
      if k = 21 then true else if k = 22 ∨ k = 23 then false else v.testBit k := by
  have h32 : (4294967296 : Nat) = 2 ^ 32 := by norm_num
  simp only [out21, h32, Nat.testBit_mod_two_pow, Nat.testBit_or, clr21_testBit v k hk,
    const_out_bits k hk, hk, decide_True, Bool.true_and]
  by_cases h21 : k = 21
  · simp [h21]
  · by_cases h22 : k = 22
    · simp [h22]
    · by_cases h23 : k = 23
      · simp [h23]
      · simp [h21, h22, h23]

theorem testBit_small (c i : Nat) (hc : c < 8) (hi : ¬ i < 3) : Nat.testBit c i = false :=
  Nat.testBit_lt_two_pow (lt_of_lt_of_le (by omega : c < 2 ^ 3)
    (Nat.pow_le_pow_right (by norm_num) (not_lt.mp hi)))

/-- After clear-then-set the three bits at 21..23 read 001. -/
theorem out21_field (v : Nat) : (out21 v >>> 21) &&& 7 = 1 := by
  apply Nat.eq_of_testBit_eq
  intro i
  rw [Nat.testBit_and, Nat.testBit_shiftRight]
  by_cases hi : i < 3
  · have hk : 21 + i < 32 := by omega
    rw [out21_testBit v _ hk]
    interval_cases i <;> simp <;> decide
  · simp [testBit_small 7 i (by norm_num) hi, testBit_small 1 i (by norm_num) hi]

/-- After the clear alone the three bits at 21..23 read 000. -/
theorem clr21_field (v : Nat) : (clr21 v >>> 21) &&& 7 = 0 := by
  apply Nat.eq_of_testBit_eq
  intro i
  rw [Nat.testBit_and, Nat.testBit_shiftRight]
  by_cases hi : i < 3
  · have hk : 21 + i < 32 := by omega
    rw [clr21_testBit v _ hk]
    interval_cases i <;> simp
  · simp [testBit_small 7 i (by norm_num) hi]

/-- A three-bit field away from position 21 is the same in `out21 v` and in `v`. -/
theorem out21_other_field (v r : Nat) (hr : r < 10) (h7 : r ≠ 7) :
    (out21 v >>> (r * 3)) &&& 7 = (v >>> (r * 3)) &&& 7 := by
  apply Nat.eq_of_testBit_eq
  intro i
  rw [Nat.testBit_and, Nat.testBit_and, Nat.testBit_shiftRight, Nat.testBit_shiftRight]
  by_cases hi : i < 3
  · have hk : r * 3 + i < 32 := by omega
    rw [out21_testBit v _ hk]
    have h1 : r * 3 + i ≠ 21 := by omega
    have h2 : r * 3 + i ≠ 22 := by omega
    have h3 : r * 3 + i ≠ 23 := by omega
    simp [h1, h2, h3]
  · simp [testBit_small 7 i (by norm_num) hi]

/-! ## The pin configuration (`configureGPIO`) -/

/-- C4: for every initial content of the register window, ` configureGPIO` completes and
leaves the enable pin (`TC_EN` = 17) as output: its function-select field, bits 21..23 of
word 1, is exactly 001, whatever it held before, because the store that clears the field
(`INP_GPIO`) comes before the store that sets bit 21 (`OUT_GPIO`). -/
theorem configureGPIO_enable_is_output (m : Machine) (hr : Ready m) :
    ∃ m', configureGPIO m = .ok () m' ∧
      TC_EN / 10 = 1 ∧ (TC_EN % 10) * 3 = 21 ∧
      fsel m'.window TC_EN = 1 ∧
      (m'.window 1).testBit 21 = true ∧ (m'.window 1).testBit 22 = false ∧
      (m'.window 1).testBit 23 = false ∧
      m'.trace = m.trace ++ cfgTrace m.window ∧
      (cfgTrace m.window).filter (Event.isStoreTo 1) =
        [.store 1 (clr21 (m.window 1)), .store 1 (out21 (m.window 1))] ∧
      (clr21 (m.window 1) >>> 21) &&& 7 = 0 ∧
      (out21 (m.window 1) >>> 21) &&& 7 = 1 := by
  refine ⟨_, configureGPIO_closed m hr, by decide, by decide, ?_, ?_, ?_, ?_, rfl, ?_,
    clr21_field _, out21_field _⟩
  · simp [fsel, TC_EN, cfgWindow, out21_field]
  · simp [cfgWindow, out21_testBit]
  · simp [cfgWindow, out21_testBit]
  · simp [cfgWindow, out21_testBit]
  · simp [cfgTrace, List.filter, Event.isStoreTo]

theorem configureGPIO_enable_is_output_witness :
    Ready onesMachine ∧ fsel onesMachine.window TC_EN = 7 ∧
      ∃ m', configureGPIO onesMachine = .ok () m' ∧ fsel m'.window TC_EN = 1 :=
  ⟨rfl, by decide,
    (configureGPIO_enable_is_output onesMachine rfl).imp fun _ h => ⟨h.1, h.2.2.2.1⟩⟩

/-- C1, as the code has it: for every initial content of the register window,
` configureGPIO` completes and leaves the busy pin (`TC_BUSY` = 27) as output, not input:
its function-select field, bits 21..23 of word 2, is 001, because the clear-then-set
sequence (`INP_GPIO` then `OUT_GPIO`) is performed for the busy pin as well as for the
enable pin. -/
theorem configureGPIO_busy_is_output (m : Machine) (hr : Ready m) :
    ∃ m', configureGPIO m = .ok () m' ∧
      TC_BUSY / 10 = 2 ∧ (TC_BUSY % 10) * 3 = 21 ∧
      fsel m'.window TC_BUSY = 1 ∧
      m'.trace = m.trace ++ cfgTrace m.window ∧
      (cfgTrace m.window).filter (Event.isStoreTo 2) =
        [.store 2 (clr21 (m.window 2)), .store 2 (out21 (m.window 2))] ∧
      (cfgTrace m.window).filter (Event.isStoreTo 1) =
        [.store 1 (clr21 (m.window 1)), .store 1 (out21 (m.window 1))] ∧
      (clr21 (m.window 2) >>> 21) &&& 7 = 0 ∧
      (out21 (m.window 2) >>> 21) &&& 7 = 1 := by
  refine ⟨_, configureGPIO_closed m hr, by decide, by decide, ?_, rfl, ?_, ?_,
    clr21_field _, out21_field _⟩
  · simp [fsel, TC_BUSY, cfgWindow, out21_field]
  · simp [cfgTrace, List.filter, Event.isStoreTo]
  · simp [cfgTrace, List.filter, Event.isStoreTo]

theorem configureGPIO_busy_is_output_witness :
    Ready mixedMachine ∧
      ∃ m', configureGPIO mixedMachine = .ok () m' ∧ fsel m'.window TC_BUSY = 1 :=
  ⟨rfl, (configureGPIO_busy_is_output mixedMachine rfl).imp fun _ h => ⟨h.1, h.2.2.2.1⟩⟩

/-- C1 as stated fails: on the all-zero register window ` configureGPIO` leaves the
function-select field of the busy pin at 1, not 0, and its trace holds the `OUT_GPIO`
store of `1 << 21` to word 2. -/
theorem configureGPIO_busy_not_left_input :
    ∃ m', configureGPIO zeroMachine = .ok () m' ∧
      fsel m'.window TC_BUSY = 1 ∧ fsel m'.window TC_BUSY ≠ 0 ∧
      m'.trace = [.load 1 0, .store 1 0, .load 2 0, .store 2 0,
                  .load 1 0, .store 1 2097152, .load 2 0, .store 2 2097152,
                  .store 10 131072] :=
  ⟨_, configureGPIO_closed zeroMachine rfl, by decide, by decide, by decide⟩

/-- C6: for every initial content of the register window, ` configureGPIO` drives the enable
pin low by one plain store, with no load of that word, of `1 << 17` = 0x00020000 to the
clear-bits port (word 10); in that value bit 17 is 1 and every other bit is 0; the store is
the last register access of the function, after the accesses to the function-select
words 1 and 2; the set-bits port (word 7) is never written. -/
theorem configureGPIO_drives_enable_low (m : Machine) (hr : Ready m) :
    ∃ m', configureGPIO m = .ok () m' ∧
      m'.trace = m.trace ++ cfgTrace m.window ∧
      toU32 (cShl 1 TC_EN) = 131072 ∧ (131072 : Nat) = 0x00020000 ∧
      (∀ k, Nat.testBit 131072 k = decide (k = 17)) ∧
      (cfgTrace m.window).getLast? = some (.store 10 131072) ∧
      (cfgTrace m.window).dropLast.all
        (fun e => e.isLoadOf 1 || e.isStoreTo 1 || e.isLoadOf 2 || e.isStoreTo 2) = true ∧
      (cfgTrace m.window).filter (Event.isStoreTo 10) = [.store 10 131072] ∧
      (cfgTrace m.window).filter (Event.isLoadOf 10) = [] ∧
      (cfgTrace m.window).filter (Event.isStoreTo 7) = [] ∧
      m'.window 10 = 131072 ∧ m'.window 7 = m.window 7 := by
  refine ⟨_, configureGPIO_closed m hr, rfl, by decide, by decide, ?_, rfl, rfl, rfl, rfl,
    rfl, rfl, rfl⟩
  intro k
  have h : (131072 : Nat) = 2 ^ 17 := by norm_num
  rw [h, Nat.testBit_two_pow]
  simp [eq_comm]

theorem configureGPIO_drives_enable_low_witness :
    Ready onesMachine ∧
      ∃ m', configureGPIO onesMachine = .ok () m' ∧ m'.window 10 = 131072 ∧
        m'.trace.getLast? = some (.store 10 131072) :=
  ⟨rfl, (configureGPIO_drives_enable_low onesMachine rfl).imp fun _ h =>
    ⟨h.1, h.2.2.2.2.2.2.2.2.2.2.1, by rw [h.2.1]; decide⟩⟩

/-- C10: frame of ` configureGPIO`.  For every initial content of the register window the
function completes and changes no word other than words 1, 2 and 10, which lie inside the
4096-byte (1024-word) window; in words 1 and 2 every bit outside positions 21..23 keeps its
value; hence the function-select field of every pin other than 17 and 27 is unchanged (for
pin numbers whose word `g / 10` is not the clear-bits port, word 10). -/
theorem configureGPIO_frame (m : Machine) (hr : Ready m) :
    ∃ m', configureGPIO m = .ok () m' ∧
      (∀ i, i ≠ 1 → i ≠ 2 → i ≠ 10 → m'.window i = m.window i) ∧
      (mapSize = 4096 ∧ mapSize / 4 = 1024 ∧ 1 < mapSize / 4 ∧ 2 < mapSize / 4 ∧
        10 < mapSize / 4) ∧
      (∀ e ∈ cfgTrace m.window, ∀ i v, e = .store i v → i = 1 ∨ i = 2 ∨ i = 10) ∧
      (∀ k, k < 32 → k ≠ 21 → k ≠ 22 → k ≠ 23 →
        (m'.window 1).testBit k = (m.window 1).testBit k ∧
        (m'.window 2).testBit k = (m.window 2).testBit k) ∧
      (∀ g, g ≠ TC_EN → g ≠ TC_BUSY → g / 10 ≠ 10 → fsel m'.window g = fsel m.window g) := by
  refine ⟨_, configureGPIO_closed m hr, ?_, by decide, ?_, ?_, ?_⟩
  · intro i h1 h2 h10
    simp [cfgWindow, h1, h2, h10]
  · intro e he i v hv
    subst hv
    simp [cfgTrace] at he
    omega
  · intro k hk h21 h22 h23
    simp [cfgWindow, out21_testBit _ k hk, h21, h22, h23]
  · intro g hen hbusy h10
    have hr10 : g % 10 < 10 := Nat.mod_lt _ (by norm_num)
    simp only [fsel, cfgWindow, h10, if_false]
    by_cases hw : g / 10 = 1 ∨ g / 10 = 2
    · have h7 : g % 10 ≠ 7 := by
        intro h
        rcases hw with hw | hw
        · exact hen (by unfold TC_EN; omega)
        · exact hbusy (by unfold TC_BUSY; omega)
      simp only [hw, if_true]
      exact out21_other_field _ _ hr10 h7
    · simp only [hw, if_false]

theorem configureGPIO_frame_witness :
    Ready mixedMachine ∧
      ∃ m', configureGPIO mixedMachine = .ok () m' ∧ m'.window 13 = mixedMachine.window 13 ∧
        fsel m'.window 18 = fsel mixedMachine.window 18 :=
  ⟨rfl, (configureGPIO_frame mixedMachine rfl).imp fun _ h =>
    ⟨h.1, h.2.1 13 (by decide) (by decide) (by decide),
      h.2.2.2.2.2 18 (by decide) (by decide) (by decide)⟩⟩

/-! ## The level read (`GPIO_READ`) -/

theorem and_pin_lt (v g : Nat) (hg : g < 32) : v &&& 2 ^ g < 4294967296 := by
  have h1 : v &&& 2 ^ g ≤ 2 ^ g := Nat.and_le_right
  have h2 : 2 ^ g < 2 ^ 32 := Nat.pow_lt_pow_right (by norm_num) hg
  have h32 : (4294967296 : Nat) = 2 ^ 32 := by norm_num
  omega

theorem busyOf_eq (v : Nat) : busyOf v = v &&& 2 ^ 27 := by
  have h : (134217728 : Nat) = 2 ^ 27 := by norm_num
  unfold busyOf
  rw [h]
  exact Nat.mod_eq_of_lt (and_pin_lt v 27 (by norm_num))

theorem busyOf_idem (v : Nat) : busyOf (busyOf v) = busyOf v := by
  rw [busyOf_eq (busyOf v), busyOf_eq v, Nat.land_assoc, Nat.and_self]

theorem busyOf_of_set (v : Nat) (h : v.testBit 27 = true) : busyOf v = 134217728 := by
  rw [busyOf_eq, Nat.and_two_pow, h]
  rfl

theorem busyOf_of_clear (v : Nat) (h : v.testBit 27 = false) : busyOf v = 0 := by
  rw [busyOf_eq, Nat.and_two_pow, h]
  simp

/-- C7: for every content of the register window, two evaluations of `GPIO_READ(TC_BUSY)`
in succession, with nothing in between, both complete and yield the same value. -/
theorem busy_read_twice_same (m : Machine) (hr : Ready m) :
    ∃ v1 m1 v2 m2, GPIO_READ TC_BUSY m = .ok v1 m1 ∧
      GPIO_READ TC_BUSY m1 = .ok v2 m2 ∧ v2 = v1 := by
  refine ⟨_, _, _, _, GPIO_READ_closed m TC_BUSY hr, GPIO_READ_closed _ TC_BUSY hr, ?_⟩
  have h := busyOf_idem (m.window 13)
  simp only [busyOf] at h
  simp [TC_BUSY, mask_busy, h]

theorem busy_read_twice_same_witness :
    Ready onesMachine ∧
      ∃ v1 m1 v2 m2, GPIO_READ TC_BUSY onesMachine = .ok v1 m1 ∧
        GPIO_READ TC_BUSY m1 = .ok v2 m2 ∧ v2 = v1 :=
  ⟨rfl, busy_read_twice_same onesMachine rfl⟩

/-- C9: `GPIO_READ(g)` is a read-modify-write.  For every content of the register window
and every pin `g` in 0..31 it completes with the value `w[13] AND (1 << g)`, which is 0 or
`2 ^ g` and is non-zero exactly when bit `g` of the level word is set; it stores that value
back into word 13, so every other bit of the level word is cleared; every other word of
the window is unchanged. -/
theorem GPIO_READ_read_modify_write (m : Machine) (g : Nat) (hr : Ready m) (hg : g ≤ 31) :
    ∃ m', GPIO_READ g m = .ok (m.window 13 &&& 2 ^ g) m' ∧
      toU32 (cShl 1 g) = 2 ^ g ∧
      (m.window 13 &&& 2 ^ g = 0 ∨ m.window 13 &&& 2 ^ g = 2 ^ g) ∧
      (m.window 13 &&& 2 ^ g ≠ 0 ↔ (m.window 13).testBit g = true) ∧
      m'.trace = m.trace ++ [.load 13 (m.window 13), .store 13 (m.window 13 &&& 2 ^ g)] ∧
      m'.window 13 = m.window 13 &&& 2 ^ g ∧
      (∀ k, k ≠ g → (m'.window 13).testBit k = false) ∧
      (∀ i, i ≠ 13 → m'.window i = m.window i) := by
  have hg' : g < 32 := by omega
  have hmask := mask_pin g hg'
  have hmod : (m.window 13 &&& 2 ^ g) % 4294967296 = m.window 13 &&& 2 ^ g :=
    Nat.mod_eq_of_lt (and_pin_lt _ g hg')
  have hclosed := GPIO_READ_closed m g hr
  rw [hmask, hmod] at hclosed
  refine ⟨_, hclosed, hmask, ?_, ?_, rfl, ?_, ?_, ?_⟩
  · rw [Nat.and_two_pow]
    cases (m.window 13).testBit g <;> simp
  · rw [Nat.and_two_pow]
    cases (m.window 13).testBit g <;> simp
  · simp [hmod]
  · intro k hk
    simp [hmod, Nat.testBit_and, Nat.testBit_two_pow, Ne.symm hk]
  · intro i hi
    simp [hi]

theorem GPIO_READ_read_modify_write_witness :
    Ready onesMachine ∧ 31 ≤ 31 ∧
      ∃ m', GPIO_READ 31 onesMachine = .ok (onesMachine.window 13 &&& 2 ^ 31) m' ∧
        m'.window 13 = 2147483648 :=
  ⟨rfl, le_refl 31, (GPIO_READ_read_modify_write onesMachine 31 rfl (le_refl 31)).imp
    fun _ h => ⟨h.1, by rw [h.2.2.2.2.2.1]; decide⟩⟩

/-! ## Failure of `::open` and of `::mmap` -/

/-- A run in which `::open` fails ends in `checkOperation` throwing, right after the call. -/
theorem run_open_fail (env : Env) (ho : env.openRet < 0) :
    run env = .throw (openFailText env)
      { gpioMmap := nullptr, gpioBase := nullptr, errno := env.openErrno, mapped := none,
        window := env.regs,
        trace := [.cout "Opening GPIO", .endl, .sysOpen "/dev/mem" env.openRet,
                  .cerr (openFailText env)] } := by
  simp [run, main, initial, Prog.bind, emit, openGPIO, sysOpen, checkOperation,
    throwRuntimeError, ho, openFailText]

/-- C5: if `::open` returns a negative value then `checkOperation` throws, so the run ends
abnormally (not with status 0); `::mmap` is not called and no register is accessed, so the
register window is unchanged.  In general `checkOperation` throws if and only if its
`result` argument is negative. -/
theorem open_failure_is_fatal (env : Env) (ho : env.openRet < 0) :
    (∃ what m', run env = .throw what m' ∧
        m'.trace = [.cout "Opening GPIO", .endl, .sysOpen "/dev/mem" env.openRet,
                    .cerr what] ∧
        m'.window = env.regs ∧ m'.mapped = none) ∧
      (run env).exit = .terminate ∧ (run env).exit ≠ .status 0 ∧
      (∀ e ∈ (run env).machine.trace, e.isMmap = false ∧ e.isRegisterAccess = false) ∧
      (run env).machine.window = env.regs ∧
      (∀ (env' : Env) (result : Int) (operation file : String) (line : Nat) (m : Machine),
        (checkOperation env' result operation file line m).raised = true ↔ result < 0) := by
  have h := run_open_fail env ho
  refine ⟨⟨_, _, h, rfl, rfl, rfl⟩, ?_, ?_, ?_, ?_, ?_⟩
  · rw [h]; rfl
  · rw [h]; simp [Result.exit]
  · rw [h]
    intro e he
    simp [Result.machine] at he
    rcases he with he | he | he | he <;> subst he <;> exact ⟨rfl, rfl⟩
  · rw [h]; rfl
  · intro env' result operation file line m
    by_cases hr : result < 0
    · simp [checkOperation, hr, Prog.bind, emit, throwRuntimeError, Result.raised]
    · simp [checkOperation, hr, Result.raised]

theorem open_failure_is_fatal_witness :
    envOpenFail.openRet < 0 ∧ (run envOpenFail).exit = .terminate ∧
      (run envOpenFail).machine.window = envOpenFail.regs :=
  ⟨by decide, (open_failure_is_fatal envOpenFail (by decide)).2.1,
    (open_failure_is_fatal envOpenFail (by decide)).2.2.2.2.1⟩

/-- C2 fails on the code: with `::open` returning descriptor 3 and `::mmap` returning
`MAP_FAILED`, ` openGPIO` closes the descriptor but throws nothing (it compares the result
with `nullptr`, not with `MAP_FAILED`), leaves `gpioBase` at `MAP_FAILED`, and the run goes
on into ` configureGPIO`, whose first register access goes through that pointer. -/
theorem mmap_failure_not_detected :
    Result.raised ( openGPIO envMapFail (initial envMapFail)) = false ∧
      (∃ m', openGPIO envMapFail (initial envMapFail) = .ok () m' ∧
        m'.gpioBase = MAP_FAILED ∧ m'.mapped = none ∧
        m'.trace = [.sysOpen "/dev/mem" 3, .sysMmap 4096 3 1059061760 (-1), .sysClose 3]) ∧
      (run envMapFail).raised = false ∧
      (run envMapFail).exit = .killed ∧
      (run envMapFail).machine.trace =
        [.cout "Opening GPIO", .endl, .sysOpen "/dev/mem" 3,
         .sysMmap 4096 3 1059061760 (-1), .sysClose 3,
         .cout "Configuring GPIO", .endl, .badAccess (-1) 1] :=
  ⟨by decide, ⟨_, rfl, by decide, by decide, by decide⟩, by decide, by decide, by decide⟩

/-! ## Whole runs -/

/-- C3, as the code has it: over a fake register window whose level word (word 13) has
the busy bit (bit 27) set at the first read and clear at the second read, a run in which
`::open` and `::mmap` succeed prints the first busy value as 134217728 (`1 << 27`, the
masked level word, not 1), then calls `usleep` exactly once, with 100000, then prints the
second busy value as 0, and returns 0. -/
theorem scenario_busy_then_idle (env : Env) (ho : 0 ≤ env.openRet) (hm : mmapSucceeds env)
    (h1 : (env.regs 13).testBit 27 = true)
    (h2 : (windowAfterDelay env 13).testBit 27 = false) :
    ∃ m', run env = .ok 0 m' ∧ (run env).exit = .status 0 ∧
      m'.trace = runTrace env ∧
      valuesAndDelays m'.trace = [.coutU32 134217728, .usleep 100000, .coutU32 0] ∧
      printedValues m'.trace = [134217728, 0] ∧
      delays m'.trace = [100000] := by
  have h := run_closed env ho hm.1 hm.2
  refine ⟨_, h, by rw [h]; rfl, rfl, ?_, ?_, ?_⟩
  · simp [runTrace, cfgTrace, valuesAndDelays, List.filter, busyOf_of_set _ h1,
      busyOf_of_clear _ h2]
  · simp [runTrace, cfgTrace, printedValues, List.filterMap, busyOf_of_set _ h1,
      busyOf_of_clear _ h2]
  · simp [runTrace, cfgTrace, delays, List.filterMap]

theorem scenario_busy_then_idle_witness :
    0 ≤ envScenario.openRet ∧ mmapSucceeds envScenario ∧
      (envScenario.regs 13).testBit 27 = true ∧
      (windowAfterDelay envScenario 13).testBit 27 = false ∧
      ∃ m', run envScenario = .ok 0 m' ∧ printedValues m'.trace = [134217728, 0] :=
  ⟨by decide, by decide, by decide, by decide,
    (scenario_busy_then_idle envScenario (by decide) (by decide) (by decide)
      (by decide)).imp fun _ h => ⟨h.1, h.2.2.2.2.1⟩⟩

/-- C3 as stated fails: in the scenario (busy bit set at the first read, flipped by the
fake when it sees the delay, clear at the second read) the run returns 0 but the numbers
printed are 134217728 and 0, not 1 and 0. -/
theorem scenario_first_value_is_not_one :
    0 ≤ envScenario.openRet ∧ mmapSucceeds envScenario ∧
      (envScenario.regs 13).testBit 27 = true ∧
      (windowAfterDelay envScenario 13).testBit 27 = false ∧
      (run envScenario).exit = .status 0 ∧
      delays (run envScenario).machine.trace = [100000] ∧
      printedValues (run envScenario).machine.trace = [134217728, 0] ∧
      printedValues (run envScenario).machine.trace ≠ [1, 0] := by
  decide

/-- C8: in every run in which `::open` and `::mmap` succeed, `main` returns 0 and its
trace is exactly `runTrace`: without the output events, one `::open`, one `::mmap`, the
`::close`, the register accesses of ` configureGPIO` once, the first busy read (load and
store of word 13), one `usleep(100000)` (100 milliseconds), the second busy read.  The
delay lies between the two busy reads and no access to word 13 comes before or within the
configuration. -/
theorem run_event_order (env : Env) (ho : 0 ≤ env.openRet) (hm : mmapSucceeds env) :
    ∃ m', run env = .ok 0 m' ∧ (run env).exit = .status 0 ∧
      m'.trace = runTrace env ∧
      systemEvents m'.trace =
        [.sysOpen "/dev/mem" env.openRet,
         .sysMmap mapSize env.openRet GPIO_BASE env.mmapRet,
         .sysClose env.openRet]
        ++ cfgTrace env.regs ++
        [.load 13 (env.regs 13), .store 13 (busyOf (env.regs 13)),
         .usleep 100000,
         .load 13 (windowAfterDelay env 13), .store 13 (busyOf (windowAfterDelay env 13))] ∧
      (m'.trace.filter Event.isMmap).length = 1 ∧
      delays m'.trace = [100000] ∧ (100000 : Nat) = 100 * 1000 ∧
      (cfgTrace env.regs).filter (fun e => e.isLoadOf 13 || e.isStoreTo 13) = [] := by
  have h := run_closed env ho hm.1 hm.2
  refine ⟨_, h, by rw [h]; rfl, rfl, ?_, ?_, ?_, by norm_num, rfl⟩
  · simp [runTrace, cfgTrace, systemEvents, List.filter, Event.isOutput]
  · simp [runTrace, cfgTrace, List.filter, Event.isMmap]
  · simp [runTrace, cfgTrace, delays, List.filterMap]

theorem run_event_order_witness :
    0 ≤ envSteady.openRet ∧ mmapSucceeds envSteady ∧
      ∃ m', run envSteady = .ok 0 m' ∧ delays m'.trace = [100000] :=
  ⟨by decide, by decide,
    (run_event_order envSteady (by decide) (by decide)).imp fun _ h =>
      ⟨h.1, h.2.2.2.2.2.1⟩⟩

end PiTweetBot
